import Mathlib

/-!
Verification of the ball-collision simulation (src/main.py) against its
specification.  The source's floating-point arithmetic is modelled over the
real numbers; `math.atan2`, `math.cos`, `math.sin` and `math.sqrt` become
`Complex.arg`, `Real.cos`, `Real.sin` and `Real.sqrt`.  The source's calls to
`random.choice(COLORS)` and `random.uniform` are modelled by explicit
parameters, since the claims quantify over all their outcomes.
-/

namespace BallSim

/-- Window width, src/main.py line 22. -/
def WIDTH : ℝ := 800

/-- Window height, src/main.py line 22. -/
def HEIGHT : ℝ := 600

/-- Centre of the fixed boundary circle, src/main.py line 32 (`WIDTH // 2`). -/
def CENTER_X : ℝ := 400

/-- Centre of the fixed boundary circle, src/main.py line 32 (`HEIGHT // 2`). -/
def CENTER_Y : ℝ := 300

/-- Radius of the fixed boundary circle, src/main.py line 33. -/
def BOUNDARY_RADIUS : ℝ := 250

/-- Downward acceleration per tick, src/main.py line 36. -/
def GRAVITY : ℝ := 0.5

/-- Declared in the source (line 37) but never used. -/
def ELASTICITY : ℝ := 1.2

/-- Minimum radius below or at which a ball no longer splits, src/main.py line 38. -/
def MIN_BALL_RADIUS : ℝ := 10

/-- Radius of seed and spawned balls, src/main.py line 39. -/
def INITIAL_BALL_RADIUS : ℝ := 30

/-- Speed given to split children, src/main.py line 40. -/
def SPLIT_FORCE : ℝ := 8.0

/-- Angular offset (degrees) of split children, src/main.py line 41. -/
def SPLIT_ANGLE : ℝ := 30

/-- Maximum speed enforced by `clamp_speed`, src/main.py line 42. -/
def MAX_SPEED : ℝ := 15.0

/-- RGB colour triple. -/
abbrev Color := ℕ × ℕ × ℕ

/-- Colour palette, src/main.py line 29. -/
def COLORS : List Color :=
  [(255, 0, 0), (0, 255, 0), (0, 0, 255), (255, 255, 0), (255, 0, 255), (0, 255, 255)]

/-- The ball entity, src/main.py lines 48-58 (`Ball.__init__`).  Fields appear
in the order the constructor assigns them. -/
@[ext] structure Ball where
  x : ℝ
  y : ℝ
  radius : ℝ
  color : Color
  vx : ℝ
  vy : ℝ
  should_split : Bool
  active : Bool
  collision_cooldown : ℕ

/-- `math.atan2 y x`, the angle of the point `(x, y)`; `atan2 0 0 = 0` as in
Python. -/
noncomputable def atan2 (y x : ℝ) : ℝ := Complex.arg ⟨x, y⟩

/-- The speed `math.sqrt(vx*vx + vy*vy)` of a ball, computed at
src/main.py lines 62 and 106. -/
noncomputable def Ball.speed (b : Ball) : ℝ := Real.sqrt (b.vx ^ 2 + b.vy ^ 2)

/-- Distance from the ball's position to the boundary centre,
src/main.py line 70. -/
noncomputable def distToCenter (b : Ball) : ℝ :=
  Real.sqrt ((b.x - CENTER_X) ^ 2 + (b.y - CENTER_Y) ^ 2)

/-- `Ball.clamp_speed`, src/main.py lines 60-66. -/
noncomputable def Ball.clamp_speed (b : Ball) : Ball :=
  if Ball.speed b > MAX_SPEED then
    { b with vx := b.vx * (MAX_SPEED / Ball.speed b),
             vy := b.vy * (MAX_SPEED / Ball.speed b) }
  else b

/-- `Ball.keep_in_bounds`, src/main.py lines 68-74: the containment clamp. -/
noncomputable def Ball.keep_in_bounds (b : Ball) : Ball :=
  if distToCenter b + b.radius > BOUNDARY_RADIUS then
    { b with
      x := CENTER_X + (BOUNDARY_RADIUS - b.radius - 1) *
             Real.cos (atan2 (b.y - CENTER_Y) (b.x - CENTER_X)),
      y := CENTER_Y + (BOUNDARY_RADIUS - b.radius - 1) *
             Real.sin (atan2 (b.y - CENTER_Y) (b.x - CENTER_X)) }
  else b

/-- The gravity step `self.vy += GRAVITY`, src/main.py line 81. -/
def Ball.applyGravity (b : Ball) : Ball := { b with vy := b.vy + GRAVITY }

/-- The state of a ball after gravity and the speed clamp, just before the
collision test of src/main.py line 91 (still at its pre-move position). -/
noncomputable def Ball.preMove (b : Ball) : Ball := (b.applyGravity).clamp_speed

/-- The boundary-collision branch of `Ball.update`, src/main.py lines 88-113:
predicted-position test, reflection about the normal taken at the current
position, minimum post-bounce rescale, split flag and cooldown. -/
noncomputable def Ball.bounce (b : Ball) : Ball :=
  if Real.sqrt ((b.x + b.vx - CENTER_X) ^ 2 + (b.y + b.vy - CENTER_Y) ^ 2)
       + b.radius > BOUNDARY_RADIUS ∧ b.collision_cooldown = 0 then
    let angle := atan2 (b.y - CENTER_Y) (b.x - CENTER_X)
    let normal_x := Real.cos angle
    let normal_y := Real.sin angle
    let dot_product := b.vx * normal_x + b.vy * normal_y
    let rvx := b.vx - 2 * dot_product * normal_x
    let rvy := b.vy - 2 * dot_product * normal_y
    let min_speed := Real.sqrt (2 * GRAVITY * BOUNDARY_RADIUS) * 1.2
    let current_speed := Real.sqrt (rvx ^ 2 + rvy ^ 2)
    { b with
      vx := if current_speed < min_speed then rvx * (min_speed / current_speed) else rvx,
      vy := if current_speed < min_speed then rvy * (min_speed / current_speed) else rvy,
      should_split := true,
      collision_cooldown := 5 }
  else b

/-- The position integration `x += vx; y += vy`, src/main.py lines 116-117. -/
def Ball.move (b : Ball) : Ball := { b with x := b.x + b.vx, y := b.y + b.vy }

/-- The cooldown decrement, src/main.py lines 122-123. -/
def Ball.tickCooldown (b : Ball) : Ball :=
  if b.collision_cooldown > 0 then
    { b with collision_cooldown := b.collision_cooldown - 1 }
  else b

/-- `Ball.update`, src/main.py lines 76-125: an inactive ball is returned
unchanged (the method returns `False` without mutating); an active ball goes
through gravity, speed clamp, collision branch, position integration,
containment clamp and cooldown decrement, in that order. -/
noncomputable def Ball.update (b : Ball) : Ball :=
  if b.active = true then (((b.preMove).bounce).move).keep_in_bounds.tickCooldown
  else b

/-- The guard of the collision branch (src/main.py line 91) evaluated on an
active ball at the start of a tick: after gravity and the speed clamp, the
predicted next position leaves the boundary and the cooldown is zero. -/
noncomputable def Ball.collides (b : Ball) : Prop :=
  b.active = true ∧
  (Real.sqrt ((b.preMove.x + b.preMove.vx - CENTER_X) ^ 2 +
      (b.preMove.y + b.preMove.vy - CENTER_Y) ^ 2)
      + b.preMove.radius > BOUNDARY_RADIUS ∧ b.preMove.collision_cooldown = 0)

/-- Velocity after the reflection of src/main.py lines 100-102 (before the
minimum-speed rescale), for a ball at the pre-move stage. -/
noncomputable def Ball.reflectedV (b : Ball) : ℝ × ℝ :=
  let angle := atan2 (b.y - CENTER_Y) (b.x - CENTER_X)
  let normal_x := Real.cos angle
  let normal_y := Real.sin angle
  let dot_product := b.vx * normal_x + b.vy * normal_y
  (b.vx - 2 * dot_product * normal_x, b.vy - 2 * dot_product * normal_y)

/-- The update of the ball reaches src/main.py line 108
(`scale = min_speed / current_speed`) with `current_speed = 0`: in Python this
raises `ZeroDivisionError`.  (The rescale branch is taken because
`current_speed = 0 < min_speed`.) -/
noncomputable def Ball.rescaleDivZero (b : Ball) : Prop :=
  Ball.collides b ∧
  Real.sqrt ((b.preMove.reflectedV).1 ^ 2 + (b.preMove.reflectedV).2 ^ 2) = 0

/-- `Ball.split`, src/main.py lines 127-152.  The two colours drawn by
`random.choice(COLORS)` are passed as parameters.  Returns the list of
children (as the Python method does) together with the parent's final state
(the method mutates `self.active`). -/
noncomputable def Ball.split (b : Ball) (c1 c2 : Color) : List Ball × Ball :=
  if b.radius > MIN_BALL_RADIUS ∧ b.active = true then
    let new_radius := b.radius / 1.4
    let base_angle := atan2 b.vy b.vx
    let split_angle_rad := SPLIT_ANGLE * (Real.pi / 180)
    ([Ball.keep_in_bounds
        { x := b.x, y := b.y, radius := new_radius, color := c1,
          vx := SPLIT_FORCE * Real.cos (base_angle + split_angle_rad),
          vy := SPLIT_FORCE * Real.sin (base_angle + split_angle_rad),
          should_split := false, active := true, collision_cooldown := 0 },
      Ball.keep_in_bounds
        { x := b.x, y := b.y, radius := new_radius, color := c2,
          vx := SPLIT_FORCE * Real.cos (base_angle + -split_angle_rad),
          vy := SPLIT_FORCE * Real.sin (base_angle + -split_angle_rad),
          should_split := false, active := true, collision_cooldown := 0 }],
     { b with active := false })
  else ([], b)

/-- The spawn-on-click handler, src/main.py lines 206-217: a ball is appended
exactly when the click point is strictly inside the boundary
(`math.hypot(mx - CENTER_X, my - CENTER_Y) < BOUNDARY_RADIUS`).  The random
velocity components are passed as parameters. -/
noncomputable def spawnAt (balls : List Ball) (mx my : ℝ) (c : Color) (vx vy : ℝ) :
    List Ball :=
  if Real.sqrt ((mx - CENTER_X) ^ 2 + (my - CENTER_Y) ^ 2) < BOUNDARY_RADIUS then
    balls ++ [{ x := mx, y := my, radius := INITIAL_BALL_RADIUS, color := c,
                vx := vx, vy := vy, should_split := false, active := true,
                collision_cooldown := 0 }]
  else balls

/-- Number of active balls in a collection (the engine filters to these,
src/main.py line 228). -/
def activeCount (l : List Ball) : ℕ := (l.filter fun b => b.active).length

/-- A radius-240 ball one unit outside its resting band, moving down: its
update collides with the bottom of the boundary. -/
def ballA : Ball := ⟨400, 309, 240, (255, 0, 0), 0, 1, false, true, 0⟩

/-- State of `ballA` after one update. -/
noncomputable def bA1 : Ball :=
  ⟨400, 309 - Real.sqrt 250 * 1.2, 240, (255, 0, 0), 0, -(Real.sqrt 250 * 1.2),
   true, true, 4⟩

/-- State of `ballA` after two updates. -/
def bA2 : Ball := ⟨400, 291, 240, (255, 0, 0), 0, -15, true, true, 3⟩

/-- State of `ballA` after three updates. -/
def bA3 : Ball := ⟨400, 291, 240, (255, 0, 0), 0, -14.5, true, true, 2⟩

/-- State of `ballA` after four updates. -/
def bA4 : Ball := ⟨400, 291, 240, (255, 0, 0), 0, -14, true, true, 1⟩

/-- State of `ballA` after five updates. -/
def bA5 : Ball := ⟨400, 291, 240, (255, 0, 0), 0, -13.5, true, true, 0⟩

/-- A splittable ball (radius 30) at the centre. -/
def ballB : Ball := ⟨400, 300, 30, (0, 255, 0), 8, 0, false, true, 0⟩

/-- A ball below the split threshold (radius 5). -/
def ballD : Ball := ⟨400, 300, 5, (0, 0, 255), 0, 0, false, true, 0⟩

/-- A ball barely above the split threshold (radius 10.5): its split children
have radius 7.5, below `MIN_BALL_RADIUS`. -/
def ballE : Ball := ⟨400, 300, 10.5, (255, 255, 0), 8, 0, false, true, 0⟩

/-- A spawnable ball state (click at (400, 549), random velocity (0, -0.5))
whose first update reaches the rescale division with a zero divisor. -/
def c4ball : Ball := ⟨400, 549, 30, (255, 0, 255), 0, -0.5, false, true, 0⟩

/-! ### Helper lemmas -/

/-- Square-root comparison: `√a ≤ t` from `a ≤ t²`. -/
theorem sqrt_le_of_sq_le {a t : ℝ} (ht : 0 ≤ t) (h : a ≤ t ^ 2) :
    Real.sqrt a ≤ t := by
  calc Real.sqrt a ≤ Real.sqrt (t ^ 2) := Real.sqrt_le_sqrt h
  _ = t := Real.sqrt_sq ht

/-- Square-root comparison: `t < √a` from `t² < a`. -/
theorem lt_sqrt_of_sq_lt {a t : ℝ} (h : t ^ 2 < a) : t < Real.sqrt a :=
  Real.lt_sqrt_of_sq_lt h

/-- Square-root comparison: `√a < t` from `a < t²` (for positive `t`). -/
theorem sqrt_lt_of_lt_sq {a t : ℝ} (ht : 0 < t) (h : a < t ^ 2) :
    Real.sqrt a < t := (Real.sqrt_lt' ht).mpr h

/-- Square-root evaluation at a perfect square. -/
theorem sqrt_eq_of_sq {a t : ℝ} (ht : 0 ≤ t) (h : a = t ^ 2) :
    Real.sqrt a = t := by rw [h, Real.sqrt_sq ht]

/-- The norm of a vector `c • (cos a, sin a)` is `|c|`. -/
theorem sqrt_scaled_dir (c a : ℝ) :
    Real.sqrt ((c * Real.cos a) ^ 2 + (c * Real.sin a) ^ 2) = |c| := by
  have h : (c * Real.cos a) ^ 2 + (c * Real.sin a) ^ 2 = c ^ 2 := by
    have hs := Real.sin_sq_add_cos_sq a
    linear_combination c ^ 2 * hs
  rw [h, Real.sqrt_sq_eq_abs]

/-- Reflection about a unit direction preserves the squared norm. -/
theorem reflect_sq_norm (vx vy c s : ℝ) (h : s ^ 2 + c ^ 2 = 1) :
    (vx - 2 * (vx * c + vy * s) * c) ^ 2 + (vy - 2 * (vx * c + vy * s) * s) ^ 2
      = vx ^ 2 + vy ^ 2 := by
  linear_combination (4 * (vx * c + vy * s) ^ 2) * h

/-- `Complex.abs` of an explicit point. -/
theorem complex_abs_mk (x y : ℝ) :
    Complex.abs ⟨x, y⟩ = Real.sqrt (x ^ 2 + y ^ 2) := by
  rw [Complex.abs_apply, Complex.normSq_mk]
  congr 1
  ring

/-- Sine of the `atan2` angle. -/
theorem sin_atan2 (y x : ℝ) :
    Real.sin (atan2 y x) = y / Real.sqrt (x ^ 2 + y ^ 2) := by
  rw [atan2, Complex.sin_arg, complex_abs_mk]

/-- Cosine of the `atan2` angle (for a nonzero point). -/
theorem cos_atan2 (y x : ℝ) (h : ¬(x = 0 ∧ y = 0)) :
    Real.cos (atan2 y x) = x / Real.sqrt (x ^ 2 + y ^ 2) := by
  have hz : (⟨x, y⟩ : ℂ) ≠ 0 := by
    intro hzero
    exact h ⟨congrArg Complex.re hzero, congrArg Complex.im hzero⟩
  rw [atan2, Complex.cos_arg hz, complex_abs_mk]

/-- At a point vertically displaced from the centre the collision normal is
`(0, sign d)`. -/
theorem vertical_normal {d : ℝ} (hd : d ≠ 0) :
    Real.cos (atan2 d 0) = 0 ∧ Real.sin (atan2 d 0) = d / |d| := by
  constructor
  · rw [cos_atan2 d 0 (by simp [hd])]
    simp
  · rw [sin_atan2 d 0]
    congr 1
    rw [show (0:ℝ) ^ 2 + d ^ 2 = d ^ 2 by ring, Real.sqrt_sq_eq_abs]

/-! ### Stage characterisations and field preservation -/

theorem clamp_speed_of_le {b : Ball} (h : Ball.speed b ≤ MAX_SPEED) :
    b.clamp_speed = b := by
  rw [Ball.clamp_speed, if_neg (not_lt.mpr h)]

theorem clamp_speed_of_gt {b : Ball} (h : MAX_SPEED < Ball.speed b) :
    b.clamp_speed = { b with vx := b.vx * (MAX_SPEED / Ball.speed b),
                             vy := b.vy * (MAX_SPEED / Ball.speed b) } := by
  rw [Ball.clamp_speed, if_pos h]

@[simp] theorem clamp_speed_x (b : Ball) : (b.clamp_speed).x = b.x := by
  rw [Ball.clamp_speed]; split <;> rfl

@[simp] theorem clamp_speed_y (b : Ball) : (b.clamp_speed).y = b.y := by
  rw [Ball.clamp_speed]; split <;> rfl

@[simp] theorem clamp_speed_radius (b : Ball) : (b.clamp_speed).radius = b.radius := by
  rw [Ball.clamp_speed]; split <;> rfl

@[simp] theorem clamp_speed_color (b : Ball) : (b.clamp_speed).color = b.color := by
  rw [Ball.clamp_speed]; split <;> rfl

@[simp] theorem clamp_speed_flag (b : Ball) :
    (b.clamp_speed).should_split = b.should_split := by
  rw [Ball.clamp_speed]; split <;> rfl

@[simp] theorem clamp_speed_active (b : Ball) : (b.clamp_speed).active = b.active := by
  rw [Ball.clamp_speed]; split <;> rfl

@[simp] theorem clamp_speed_cd (b : Ball) :
    (b.clamp_speed).collision_cooldown = b.collision_cooldown := by
  rw [Ball.clamp_speed]; split <;> rfl

@[simp] theorem bounce_x (b : Ball) : (b.bounce).x = b.x := by
  rw [Ball.bounce]; split <;> rfl

@[simp] theorem bounce_y (b : Ball) : (b.bounce).y = b.y := by
  rw [Ball.bounce]; split <;> rfl

@[simp] theorem bounce_radius (b : Ball) : (b.bounce).radius = b.radius := by
  rw [Ball.bounce]; split <;> rfl

@[simp] theorem bounce_color (b : Ball) : (b.bounce).color = b.color := by
  rw [Ball.bounce]; split <;> rfl

@[simp] theorem bounce_active (b : Ball) : (b.bounce).active = b.active := by
  rw [Ball.bounce]; split <;> rfl

@[simp] theorem kib_radius (b : Ball) : (b.keep_in_bounds).radius = b.radius := by
  rw [Ball.keep_in_bounds]; split <;> rfl

@[simp] theorem kib_color (b : Ball) : (b.keep_in_bounds).color = b.color := by
  rw [Ball.keep_in_bounds]; split <;> rfl

@[simp] theorem kib_vx (b : Ball) : (b.keep_in_bounds).vx = b.vx := by
  rw [Ball.keep_in_bounds]; split <;> rfl

@[simp] theorem kib_vy (b : Ball) : (b.keep_in_bounds).vy = b.vy := by
  rw [Ball.keep_in_bounds]; split <;> rfl

@[simp] theorem kib_flag (b : Ball) :
    (b.keep_in_bounds).should_split = b.should_split := by
  rw [Ball.keep_in_bounds]; split <;> rfl

@[simp] theorem kib_active (b : Ball) : (b.keep_in_bounds).active = b.active := by
  rw [Ball.keep_in_bounds]; split <;> rfl

@[simp] theorem kib_cd (b : Ball) :
    (b.keep_in_bounds).collision_cooldown = b.collision_cooldown := by
  rw [Ball.keep_in_bounds]; split <;> rfl

@[simp] theorem tick_x (b : Ball) : (b.tickCooldown).x = b.x := by
  rw [Ball.tickCooldown]; split <;> rfl

@[simp] theorem tick_y (b : Ball) : (b.tickCooldown).y = b.y := by
  rw [Ball.tickCooldown]; split <;> rfl

@[simp] theorem tick_radius (b : Ball) : (b.tickCooldown).radius = b.radius := by
  rw [Ball.tickCooldown]; split <;> rfl

@[simp] theorem tick_color (b : Ball) : (b.tickCooldown).color = b.color := by
  rw [Ball.tickCooldown]; split <;> rfl

@[simp] theorem tick_vx (b : Ball) : (b.tickCooldown).vx = b.vx := by
  rw [Ball.tickCooldown]; split <;> rfl

@[simp] theorem tick_vy (b : Ball) : (b.tickCooldown).vy = b.vy := by
  rw [Ball.tickCooldown]; split <;> rfl

@[simp] theorem tick_flag (b : Ball) :
    (b.tickCooldown).should_split = b.should_split := by
  rw [Ball.tickCooldown]; split <;> rfl

@[simp] theorem tick_active (b : Ball) : (b.tickCooldown).active = b.active := by
  rw [Ball.tickCooldown]; split <;> rfl

theorem tick_of_zero {b : Ball} (h : b.collision_cooldown = 0) :
    b.tickCooldown = b := by
  rw [Ball.tickCooldown, if_neg]; omega

theorem tick_of_pos {b : Ball} (h : b.collision_cooldown ≠ 0) :
    b.tickCooldown = { b with collision_cooldown := b.collision_cooldown - 1 } := by
  rw [Ball.tickCooldown, if_pos (Nat.pos_of_ne_zero h)]

theorem bounce_of_not {b : Ball}
    (h : ¬(Real.sqrt ((b.x + b.vx - CENTER_X) ^ 2 + (b.y + b.vy - CENTER_Y) ^ 2)
        + b.radius > BOUNDARY_RADIUS ∧ b.collision_cooldown = 0)) :
    b.bounce = b := by
  rw [Ball.bounce, if_neg h]

theorem bounce_of_cd {b : Ball} (h : b.collision_cooldown ≠ 0) : b.bounce = b :=
  bounce_of_not (by rintro ⟨-, h2⟩; exact h h2)

theorem kib_of_le {b : Ball} (h : distToCenter b + b.radius ≤ BOUNDARY_RADIUS) :
    b.keep_in_bounds = b := by
  rw [Ball.keep_in_bounds, if_neg (not_lt.mpr h)]

theorem kib_of_gt {b : Ball} (h : BOUNDARY_RADIUS < distToCenter b + b.radius) :
    b.keep_in_bounds = { b with
      x := CENTER_X + (BOUNDARY_RADIUS - b.radius - 1) *
             Real.cos (atan2 (b.y - CENTER_Y) (b.x - CENTER_X)),
      y := CENTER_Y + (BOUNDARY_RADIUS - b.radius - 1) *
             Real.sin (atan2 (b.y - CENTER_Y) (b.x - CENTER_X)) } := by
  rw [Ball.keep_in_bounds, if_pos h]

theorem update_of_active {b : Ball} (ha : b.active = true) :
    b.update = (((b.preMove).bounce).move).keep_in_bounds.tickCooldown := by
  rw [Ball.update, if_pos ha]

theorem update_of_inactive {b : Ball} (ha : b.active = false) :
    b.update = b := by
  rw [Ball.update, if_neg]; simp [ha]

@[simp] theorem preMove_x (b : Ball) : (b.preMove).x = b.x := by
  rw [Ball.preMove]; simp [Ball.applyGravity]

@[simp] theorem preMove_y (b : Ball) : (b.preMove).y = b.y := by
  rw [Ball.preMove]; simp [Ball.applyGravity]

@[simp] theorem preMove_radius (b : Ball) : (b.preMove).radius = b.radius := by
  rw [Ball.preMove]; simp [Ball.applyGravity]

@[simp] theorem preMove_color (b : Ball) : (b.preMove).color = b.color := by
  rw [Ball.preMove]; simp [Ball.applyGravity]

@[simp] theorem preMove_flag (b : Ball) :
    (b.preMove).should_split = b.should_split := by
  rw [Ball.preMove]; simp [Ball.applyGravity]

@[simp] theorem preMove_active (b : Ball) : (b.preMove).active = b.active := by
  rw [Ball.preMove]; simp [Ball.applyGravity]

@[simp] theorem preMove_cd (b : Ball) :
    (b.preMove).collision_cooldown = b.collision_cooldown := by
  rw [Ball.preMove]; simp [Ball.applyGravity]

@[simp] theorem move_x (b : Ball) : (b.move).x = b.x + b.vx := rfl

@[simp] theorem move_y (b : Ball) : (b.move).y = b.y + b.vy := rfl

@[simp] theorem move_radius (b : Ball) : (b.move).radius = b.radius := rfl

@[simp] theorem move_color (b : Ball) : (b.move).color = b.color := rfl

@[simp] theorem move_vx (b : Ball) : (b.move).vx = b.vx := rfl

@[simp] theorem move_vy (b : Ball) : (b.move).vy = b.vy := rfl

@[simp] theorem move_flag (b : Ball) : (b.move).should_split = b.should_split := rfl

@[simp] theorem move_active (b : Ball) : (b.move).active = b.active := rfl

@[simp] theorem move_cd (b : Ball) :
    (b.move).collision_cooldown = b.collision_cooldown := rfl

@[simp] theorem update_active (b : Ball) : (b.update).active = b.active := by
  rw [Ball.update]; split <;> simp [Ball.move]

@[simp] theorem update_radius (b : Ball) : (b.update).radius = b.radius := by
  rw [Ball.update]; split <;> simp [Ball.move]

theorem distToCenter_tick (b : Ball) :
    distToCenter (b.tickCooldown) = distToCenter b := by
  unfold distToCenter; rw [tick_x, tick_y]

/-! ### The containment clamp -/

/-- A ball the clamp fires on ends exactly `BOUNDARY_RADIUS - radius - 1`
away from the centre. -/
theorem kib_dist_of_violation {b : Ball} (h1 : b.radius ≤ BOUNDARY_RADIUS - 1)
    (hv : BOUNDARY_RADIUS < distToCenter b + b.radius) :
    distToCenter (b.keep_in_bounds) = BOUNDARY_RADIUS - b.radius - 1 := by
  rw [kib_of_gt hv]
  have hq : (0:ℝ) ≤ BOUNDARY_RADIUS - b.radius - 1 := by
    simp only [BOUNDARY_RADIUS] at *; linarith
  have e : distToCenter { b with
      x := CENTER_X + (BOUNDARY_RADIUS - b.radius - 1) *
             Real.cos (atan2 (b.y - CENTER_Y) (b.x - CENTER_X)),
      y := CENTER_Y + (BOUNDARY_RADIUS - b.radius - 1) *
             Real.sin (atan2 (b.y - CENTER_Y) (b.x - CENTER_X)) } =
      Real.sqrt (((BOUNDARY_RADIUS - b.radius - 1) *
          Real.cos (atan2 (b.y - CENTER_Y) (b.x - CENTER_X))) ^ 2 +
        ((BOUNDARY_RADIUS - b.radius - 1) *
          Real.sin (atan2 (b.y - CENTER_Y) (b.x - CENTER_X))) ^ 2) := by
    unfold distToCenter
    congr 1
    ring
  rw [e, sqrt_scaled_dir, abs_of_nonneg hq]

/-- After the containment clamp, a ball of reasonable radius fits in the
boundary. -/
theorem kib_contain {b : Ball} (h1 : b.radius ≤ BOUNDARY_RADIUS - 1) :
    distToCenter (b.keep_in_bounds) + b.radius ≤ BOUNDARY_RADIUS := by
  by_cases hc : BOUNDARY_RADIUS < distToCenter b + b.radius
  · rw [kib_dist_of_violation h1 hc]; linarith
  · rw [kib_of_le (not_lt.mp hc)]; exact not_lt.mp hc

/-- C1: every active ball, at the end of any update (and every split child,
clamped at creation), satisfies `distance to centre + radius ≤
BOUNDARY_RADIUS` (the code even guarantees the exact bound, well within the
claimed 1-unit tolerance), and the containment clamp places a violating ball
exactly `BOUNDARY_RADIUS - radius - 1` from the centre. -/
theorem containment_invariant (b : Ball) (h1 : b.radius ≤ BOUNDARY_RADIUS - 1)
    (ha : b.active = true) :
    distToCenter (b.update) + (b.update).radius ≤ BOUNDARY_RADIUS ∧
    (BOUNDARY_RADIUS < distToCenter b + b.radius →
      distToCenter (b.keep_in_bounds) = BOUNDARY_RADIUS - b.radius - 1) ∧
    (∀ c1 c2 : Color, ∀ c ∈ (b.split c1 c2).1,
      distToCenter c + c.radius ≤ BOUNDARY_RADIUS) := by
  refine ⟨?_, fun hv => kib_dist_of_violation h1 hv, ?_⟩
  · rw [update_of_active ha, distToCenter_tick]
    have hMr : (((b.preMove).bounce).move).radius = b.radius := by simp
    have h := kib_contain (b := ((b.preMove).bounce).move) (by rw [hMr]; exact h1)
    rw [hMr] at h
    simpa using h
  · intro c1 c2 c hc
    by_cases hcond : b.radius > MIN_BALL_RADIUS ∧ b.active = true
    · simp only [Ball.split, if_pos hcond, List.mem_cons, List.mem_singleton,
        List.not_mem_nil, or_false] at hc
      have hr14 : b.radius / 1.4 ≤ BOUNDARY_RADIUS - 1 := by
        rw [div_le_iff₀ (by norm_num : (0:ℝ) < 1.4)]
        simp only [BOUNDARY_RADIUS] at h1 ⊢
        linarith
      rcases hc with rfl | rfl <;>
        · rw [kib_radius]
          exact kib_contain hr14
    · simp only [Ball.split, if_neg hcond] at hc
      exact absurd hc (by simp)

/-- Witness for `containment_invariant` at the concrete ball `ballB`. -/
theorem containment_invariant_witness :
    ballB.radius ≤ BOUNDARY_RADIUS - 1 ∧ ballB.active = true ∧
    distToCenter (ballB.update) + (ballB.update).radius ≤ BOUNDARY_RADIUS :=
  ⟨by norm_num [ballB, BOUNDARY_RADIUS], rfl,
   (containment_invariant ballB (by norm_num [ballB, BOUNDARY_RADIUS]) rfl).1⟩

/-- Speed is unchanged by the containment clamp (it only moves the ball). -/
theorem speed_kib (b : Ball) : Ball.speed (b.keep_in_bounds) = Ball.speed b := by
  unfold Ball.speed; rw [kib_vx, kib_vy]

/-- C8: on a too-small or inactive ball, `split` returns the empty list and
leaves the ball completely unchanged. -/
theorem split_noop (b : Ball) (c1 c2 : Color)
    (h : b.radius ≤ MIN_BALL_RADIUS ∨ b.active = false) :
    b.split c1 c2 = ([], b) := by
  rw [Ball.split, if_neg]
  rintro ⟨hr, ha⟩
  rcases h with h | h
  · exact absurd hr (not_lt.mpr h)
  · rw [h] at ha; cases ha

/-- Witness for `split_noop` at the radius-5 ball `ballD`. -/
theorem split_noop_witness :
    ballD.radius ≤ MIN_BALL_RADIUS ∧ ballD.split (0, 0, 0) (0, 0, 0) = ([], ballD) :=
  ⟨by norm_num [ballD, MIN_BALL_RADIUS],
   split_noop ballD _ _ (Or.inl (by norm_num [ballD, MIN_BALL_RADIUS]))⟩

/-- C9: a spawn command appends a fresh ball exactly when the click point is
strictly inside the boundary; at distance `≥ BOUNDARY_RADIUS` (in particular
exactly on the circle) the collection is unchanged. -/
theorem spawn_strict_inside (balls : List Ball) (mx my : ℝ) (c : Color) (vx vy : ℝ) :
    (Real.sqrt ((mx - CENTER_X) ^ 2 + (my - CENTER_Y) ^ 2) < BOUNDARY_RADIUS →
      spawnAt balls mx my c vx vy = balls ++
        [{ x := mx, y := my, radius := INITIAL_BALL_RADIUS, color := c, vx := vx,
           vy := vy, should_split := false, active := true, collision_cooldown := 0 }]) ∧
    (BOUNDARY_RADIUS ≤ Real.sqrt ((mx - CENTER_X) ^ 2 + (my - CENTER_Y) ^ 2) →
      spawnAt balls mx my c vx vy = balls) := by
  constructor
  · intro h; rw [spawnAt, if_pos h]
  · intro h; rw [spawnAt, if_neg (not_lt.mpr h)]

/-- Witness for `spawn_strict_inside`: a click at (650, 300), exactly on the
boundary circle, is rejected. -/
theorem spawn_strict_inside_witness :
    BOUNDARY_RADIUS ≤ Real.sqrt (((650:ℝ) - CENTER_X) ^ 2 + ((300:ℝ) - CENTER_Y) ^ 2) ∧
    spawnAt [] 650 300 (0, 0, 0) 0 0 = [] := by
  have h : Real.sqrt (((650:ℝ) - CENTER_X) ^ 2 + ((300:ℝ) - CENTER_Y) ^ 2) = 250 :=
    sqrt_eq_of_sq (by norm_num) (by norm_num [CENTER_X, CENTER_Y])
  exact ⟨by rw [h]; norm_num [BOUNDARY_RADIUS],
    (spawn_strict_inside [] 650 300 (0, 0, 0) 0 0).2
      (by rw [h]; norm_num [BOUNDARY_RADIUS])⟩

/-- C2 is refuted: the radius-10.5 ball `ballE` may split (10.5 > 10), and
both returned children are active with radius 7.5 < MIN_BALL_RADIUS. -/
theorem min_radius_counterexample :
    ((ballE.split (255, 0, 0) (0, 255, 0)).1.map Ball.radius) = [7.5, 7.5] ∧
    ((ballE.split (255, 0, 0) (0, 255, 0)).1.map Ball.active) = [true, true] ∧
    (7.5:ℝ) < MIN_BALL_RADIUS := by
  have hcond : ballE.radius > MIN_BALL_RADIUS ∧ ballE.active = true :=
    ⟨by norm_num [ballE, MIN_BALL_RADIUS], rfl⟩
  refine ⟨?_, ?_, by norm_num [MIN_BALL_RADIUS]⟩
  · simp only [Ball.split, if_pos hcond, List.map_cons, List.map_nil, kib_radius]
    norm_num [ballE]
  · simp only [Ball.split, if_pos hcond, List.map_cons, List.map_nil, kib_active]

/-- The two children of a successful split both have radius `parent/1.4`. -/
theorem split_children_radius (b : Ball) (c1 c2 : Color)
    (hcond : b.radius > MIN_BALL_RADIUS ∧ b.active = true) :
    ((b.split c1 c2).1.map Ball.radius) = [b.radius / 1.4, b.radius / 1.4] := by
  simp only [Ball.split, if_pos hcond, List.map_cons, List.map_nil, kib_radius]

/-- The two children of a successful split both have speed `SPLIT_FORCE`. -/
theorem split_children_speed (b : Ball) (c1 c2 : Color)
    (hcond : b.radius > MIN_BALL_RADIUS ∧ b.active = true) :
    ((b.split c1 c2).1.map Ball.speed) = [SPLIT_FORCE, SPLIT_FORCE] := by
  simp only [Ball.split, if_pos hcond, List.map_cons, List.map_nil,
    Ball.speed, kib_vx, kib_vy]
  rw [sqrt_scaled_dir, sqrt_scaled_dir]
  norm_num [SPLIT_FORCE]

/-- C2 corrected: children of a split have radius exactly `parent/1.4`, which
stays above `MIN_BALL_RADIUS / 1.4` but can drop below `MIN_BALL_RADIUS`
itself. -/
theorem min_radius_amended (b : Ball) (c1 c2 : Color)
    (hr : MIN_BALL_RADIUS < b.radius) (ha : b.active = true) :
    ((b.split c1 c2).1.map Ball.radius) = [b.radius / 1.4, b.radius / 1.4] ∧
    MIN_BALL_RADIUS / 1.4 < b.radius / 1.4 := by
  refine ⟨split_children_radius b c1 c2 ⟨hr, ha⟩, ?_⟩
  have h14 : (0:ℝ) < 1.4 := by norm_num
  exact (div_lt_div_iff_of_pos_right h14).mpr hr

/-- Witness for `min_radius_amended` at the concrete ball `ballE`. -/
theorem min_radius_amended_witness :
    MIN_BALL_RADIUS < ballE.radius ∧
    ((ballE.split (0, 0, 255) (255, 0, 255)).1.map Ball.radius)
      = [ballE.radius / 1.4, ballE.radius / 1.4] :=
  ⟨by norm_num [ballE, MIN_BALL_RADIUS],
   (min_radius_amended ballE _ _ (by norm_num [ballE, MIN_BALL_RADIUS]) rfl).1⟩

/-- C10: every split child starts with zero cooldown, a clear pending-split
flag, active status, and speed exactly `SPLIT_FORCE`, which is below
`MAX_SPEED`. -/
theorem split_child_state (b : Ball) (c1 c2 : Color)
    (hr : MIN_BALL_RADIUS < b.radius) (ha : b.active = true) :
    ((b.split c1 c2).1.map Ball.collision_cooldown) = [0, 0] ∧
    ((b.split c1 c2).1.map Ball.should_split) = [false, false] ∧
    ((b.split c1 c2).1.map Ball.active) = [true, true] ∧
    ((b.split c1 c2).1.map Ball.speed) = [SPLIT_FORCE, SPLIT_FORCE] ∧
    SPLIT_FORCE < MAX_SPEED := by
  have hcond : b.radius > MIN_BALL_RADIUS ∧ b.active = true := ⟨hr, ha⟩
  refine ⟨?_, ?_, ?_, ?_, by norm_num [SPLIT_FORCE, MAX_SPEED]⟩
  · simp only [Ball.split, if_pos hcond, List.map_cons, List.map_nil, kib_cd]
  · simp only [Ball.split, if_pos hcond, List.map_cons, List.map_nil, kib_flag]
  · simp only [Ball.split, if_pos hcond, List.map_cons, List.map_nil, kib_active]
  · exact split_children_speed b c1 c2 hcond

/-- Witness for `split_child_state` at the concrete ball `ballB`. -/
theorem split_child_state_witness :
    MIN_BALL_RADIUS < ballB.radius ∧
    ((ballB.split (0, 0, 255) (255, 255, 0)).1.map Ball.collision_cooldown) = [0, 0] :=
  ⟨by norm_num [ballB, MIN_BALL_RADIUS],
   (split_child_state ballB _ _ (by norm_num [ballB, MIN_BALL_RADIUS]) rfl).1⟩

/-- C6: a split of an active, large-enough ball yields exactly two children of
radius `parent/1.4`, marks the parent inactive, raises the active count by
exactly one, and each child is the containment clamp applied to a ball at
the parent's position with speed `SPLIT_FORCE` at `baseAngle ± 30°`. -/
theorem split_conservation (b : Ball) (c1 c2 : Color)
    (hr : MIN_BALL_RADIUS < b.radius) (ha : b.active = true) :
    (b.split c1 c2).1.length = 2 ∧
    ((b.split c1 c2).1.map Ball.radius) = [b.radius / 1.4, b.radius / 1.4] ∧
    (b.split c1 c2).2 = { b with active := false } ∧
    activeCount ((b.split c1 c2).1 ++ [(b.split c1 c2).2]) = activeCount [b] + 1 ∧
    (b.split c1 c2).1 =
      [Ball.keep_in_bounds
        { x := b.x, y := b.y, radius := b.radius / 1.4, color := c1,
          vx := SPLIT_FORCE * Real.cos (atan2 b.vy b.vx + SPLIT_ANGLE * (Real.pi / 180)),
          vy := SPLIT_FORCE * Real.sin (atan2 b.vy b.vx + SPLIT_ANGLE * (Real.pi / 180)),
          should_split := false, active := true, collision_cooldown := 0 },
       Ball.keep_in_bounds
        { x := b.x, y := b.y, radius := b.radius / 1.4, color := c2,
          vx := SPLIT_FORCE * Real.cos (atan2 b.vy b.vx + -(SPLIT_ANGLE * (Real.pi / 180))),
          vy := SPLIT_FORCE * Real.sin (atan2 b.vy b.vx + -(SPLIT_ANGLE * (Real.pi / 180))),
          should_split := false, active := true, collision_cooldown := 0 }] ∧
    ((b.split c1 c2).1.map Ball.speed) = [SPLIT_FORCE, SPLIT_FORCE] := by
  have hcond : b.radius > MIN_BALL_RADIUS ∧ b.active = true := ⟨hr, ha⟩
  refine ⟨?_, split_children_radius b c1 c2 hcond, ?_, ?_, ?_,
    split_children_speed b c1 c2 hcond⟩
  · simp only [Ball.split, if_pos hcond, List.length_cons, List.length_nil]
  · simp only [Ball.split, if_pos hcond]
  · simp only [Ball.split, if_pos hcond, activeCount, List.filter_append]
    simp [ha]
  · simp only [Ball.split, if_pos hcond]

/-- Witness for `split_conservation` at the concrete ball `ballB`. -/
theorem split_conservation_witness :
    MIN_BALL_RADIUS < ballB.radius ∧
    (ballB.split (255, 0, 0) (0, 255, 255)).1.length = 2 :=
  ⟨by norm_num [ballB, MIN_BALL_RADIUS],
   (split_conservation ballB _ _ (by norm_num [ballB, MIN_BALL_RADIUS]) rfl).1⟩

/-! ### The collision branch -/

/-- C7: on a collision tick (predicted position out of bounds, cooldown zero),
the update reflects the velocity about the normal computed at the current
pre-move position, rescales it up to `minSpeed = sqrt(2*GRAVITY*
BOUNDARY_RADIUS)*1.2` when slower, and then integrates the position with the
post-bounce velocity before the containment clamp and cooldown decrement. -/
theorem collision_response (b : Ball) (h : Ball.collides b) :
    b.update =
      Ball.tickCooldown (Ball.keep_in_bounds
        { x := b.preMove.x +
            (if Real.sqrt ((b.preMove.reflectedV).1 ^ 2 + (b.preMove.reflectedV).2 ^ 2)
                < Real.sqrt (2 * GRAVITY * BOUNDARY_RADIUS) * 1.2 then
              (b.preMove.reflectedV).1 *
                (Real.sqrt (2 * GRAVITY * BOUNDARY_RADIUS) * 1.2 /
                  Real.sqrt ((b.preMove.reflectedV).1 ^ 2 + (b.preMove.reflectedV).2 ^ 2))
             else (b.preMove.reflectedV).1),
          y := b.preMove.y +
            (if Real.sqrt ((b.preMove.reflectedV).1 ^ 2 + (b.preMove.reflectedV).2 ^ 2)
                < Real.sqrt (2 * GRAVITY * BOUNDARY_RADIUS) * 1.2 then
              (b.preMove.reflectedV).2 *
                (Real.sqrt (2 * GRAVITY * BOUNDARY_RADIUS) * 1.2 /
                  Real.sqrt ((b.preMove.reflectedV).1 ^ 2 + (b.preMove.reflectedV).2 ^ 2))
             else (b.preMove.reflectedV).2),
          radius := b.preMove.radius, color := b.preMove.color,
          vx :=
            (if Real.sqrt ((b.preMove.reflectedV).1 ^ 2 + (b.preMove.reflectedV).2 ^ 2)
                < Real.sqrt (2 * GRAVITY * BOUNDARY_RADIUS) * 1.2 then
              (b.preMove.reflectedV).1 *
                (Real.sqrt (2 * GRAVITY * BOUNDARY_RADIUS) * 1.2 /
                  Real.sqrt ((b.preMove.reflectedV).1 ^ 2 + (b.preMove.reflectedV).2 ^ 2))
             else (b.preMove.reflectedV).1),
          vy :=
            (if Real.sqrt ((b.preMove.reflectedV).1 ^ 2 + (b.preMove.reflectedV).2 ^ 2)
                < Real.sqrt (2 * GRAVITY * BOUNDARY_RADIUS) * 1.2 then
              (b.preMove.reflectedV).2 *
                (Real.sqrt (2 * GRAVITY * BOUNDARY_RADIUS) * 1.2 /
                  Real.sqrt ((b.preMove.reflectedV).1 ^ 2 + (b.preMove.reflectedV).2 ^ 2))
             else (b.preMove.reflectedV).2),
          should_split := true, active := b.preMove.active,
          collision_cooldown := 5 }) := by
  obtain ⟨ha, hc⟩ := h
  rw [update_of_active ha]
  simp only [Ball.bounce]
  rw [if_pos hc]
  rfl

/-- The pre-move stage of `ballA`'s first update, evaluated. -/
theorem preMove_ballA :
    ballA.preMove = ⟨400, 309, 240, (255, 0, 0), 0, 1.5, false, true, 0⟩ := by
  unfold Ball.preMove
  have hg : ballA.applyGravity = (⟨400, 309, 240, (255, 0, 0), 0, 1.5, false, true, 0⟩ : Ball) := by
    unfold Ball.applyGravity ballA
    ext <;> norm_num [GRAVITY]
  rw [hg]
  exact clamp_speed_of_le (by
    unfold Ball.speed
    exact sqrt_le_of_sq_le (by norm_num [MAX_SPEED]) (by norm_num [MAX_SPEED]))

/-- The collision guard holds at `ballA`. -/
theorem collides_ballA : Ball.collides ballA := by
  refine ⟨rfl, ?_, ?_⟩
  · rw [preMove_ballA]
    have h : (10:ℝ) < Real.sqrt (((400:ℝ) + 0 - CENTER_X) ^ 2 + ((309:ℝ) + 1.5 - CENTER_Y) ^ 2) :=
      lt_sqrt_of_sq_lt (by norm_num [CENTER_X, CENTER_Y])
    show BOUNDARY_RADIUS < Real.sqrt (((400:ℝ) + 0 - CENTER_X) ^ 2 + ((309:ℝ) + 1.5 - CENTER_Y) ^ 2) + 240
    simp only [BOUNDARY_RADIUS]
    linarith
  · rw [preMove_ballA]

/-- Witness for `collision_response` at the concrete ball `ballA`. -/
theorem collision_response_witness :
    (ballA.update).should_split = true ∧ (ballA.update).collision_cooldown = 4 := by
  rw [collision_response ballA collides_ballA]
  constructor
  · simp
  · simp [Ball.tickCooldown]

/-! ### A concrete trace of `ballA` through six updates -/

theorem update_ballA : ballA.update = bA1 := by
  rw [update_of_active rfl, preMove_ballA]
  have hgeo : Real.sqrt (((400:ℝ) + 0 - CENTER_X) ^ 2 + ((309:ℝ) + 1.5 - CENTER_Y) ^ 2)
      + (240:ℝ) > BOUNDARY_RADIUS := by
    have h : (10:ℝ) < Real.sqrt (((400:ℝ) + 0 - CENTER_X) ^ 2 + ((309:ℝ) + 1.5 - CENTER_Y) ^ 2) :=
      lt_sqrt_of_sq_lt (by norm_num [CENTER_X, CENTER_Y])
    simp only [BOUNDARY_RADIUS]
    linarith
  have hb : (⟨400, 309, 240, (255, 0, 0), 0, 1.5, false, true, 0⟩ : Ball).bounce =
      ⟨400, 309, 240, (255, 0, 0), 0, -(Real.sqrt 250 * 1.2), true, true, 5⟩ := by
    simp only [Ball.bounce]
    rw [if_pos (⟨hgeo, trivial⟩ :
      Real.sqrt (((400:ℝ) + 0 - CENTER_X) ^ 2 + ((309:ℝ) + 1.5 - CENTER_Y) ^ 2)
        + (240:ℝ) > BOUNDARY_RADIUS ∧ True)]
    have hyc : (309:ℝ) - CENTER_Y = 9 := by norm_num [CENTER_Y]
    have hxc : (400:ℝ) - CENTER_X = 0 := by norm_num [CENTER_X]
    rw [hyc, hxc]
    obtain ⟨hc0, hs0⟩ := vertical_normal (show (9:ℝ) ≠ 0 by norm_num)
    have hs1 : Real.sin (atan2 9 0) = 1 := by rw [hs0]; norm_num
    rw [hc0, hs1]
    ext <;> norm_num
    have h94 : Real.sqrt 9 / Real.sqrt 4 = 3 / 2 := by
      rw [show (9:ℝ) = 3 ^ 2 by norm_num, show (4:ℝ) = 2 ^ 2 by norm_num,
        Real.sqrt_sq (by norm_num : (0:ℝ) ≤ 3), Real.sqrt_sq (by norm_num : (0:ℝ) ≤ 2)]
    have h250 : (2:ℝ) * GRAVITY * BOUNDARY_RADIUS = 250 := by
      norm_num [GRAVITY, BOUNDARY_RADIUS]
    rw [h94, h250]
    have hlt : (3:ℝ) / 2 < Real.sqrt 250 * (6 / 5) := by
      have h1 : (12.5:ℝ) < Real.sqrt 250 := lt_sqrt_of_sq_lt (by norm_num)
      nlinarith
    rw [if_pos hlt]
    have h32 : ((3:ℝ) / 2) ≠ 0 := by norm_num
    field_simp
    ring
  rw [hb]
  have hmv : (⟨400, 309, 240, (255, 0, 0), 0, -(Real.sqrt 250 * 1.2), true, true, 5⟩ : Ball).move =
      ⟨400, 309 - Real.sqrt 250 * 1.2, 240, (255, 0, 0), 0, -(Real.sqrt 250 * 1.2), true, true, 5⟩ := by
    rw [Ball.move]
    ext <;> first | rfl | ring | norm_num
  rw [hmv]
  have hub : Real.sqrt 250 < 15.82 := sqrt_lt_of_lt_sq (by norm_num) (by norm_num)
  have hlb : (7.5:ℝ) < Real.sqrt 250 := lt_sqrt_of_sq_lt (by norm_num)
  have hdist : distToCenter
      (⟨400, 309 - Real.sqrt 250 * 1.2, 240, (255, 0, 0), 0, -(Real.sqrt 250 * 1.2), true, true, 5⟩ : Ball) =
      Real.sqrt 250 * 1.2 - 9 := by
    show Real.sqrt (((400:ℝ) - CENTER_X) ^ 2 +
      ((309:ℝ) - Real.sqrt 250 * 1.2 - CENTER_Y) ^ 2) = Real.sqrt 250 * 1.2 - 9
    have e : ((400:ℝ) - CENTER_X) ^ 2 + ((309:ℝ) - Real.sqrt 250 * 1.2 - CENTER_Y) ^ 2
        = (Real.sqrt 250 * 1.2 - 9) ^ 2 := by
      simp only [CENTER_X, CENTER_Y]
      ring
    rw [e, Real.sqrt_sq (by nlinarith)]
  have hin : Real.sqrt 250 * 1.2 - 9 + 240 ≤ BOUNDARY_RADIUS := by
    simp only [BOUNDARY_RADIUS]
    nlinarith
  rw [kib_of_le (by rw [hdist]; exact hin)]
  rw [tick_of_pos (by norm_num)]
  ext <;> first | rfl | norm_num [bA1]

theorem update_bA1 : bA1.update = bA2 := by
  have hub : Real.sqrt 250 < 15.82 := sqrt_lt_of_lt_sq (by norm_num) (by norm_num)
  have hlb : (15.8:ℝ) < Real.sqrt 250 := lt_sqrt_of_sq_lt (by norm_num)
  rw [update_of_active rfl]
  have hg : bA1.applyGravity =
      ⟨400, 309 - Real.sqrt 250 * 1.2, 240, (255, 0, 0), 0,
        -(Real.sqrt 250 * 1.2) + 0.5, true, true, 4⟩ := by
    unfold Ball.applyGravity bA1
    ext <;> first | rfl | norm_num [GRAVITY]
  have hspeed : Ball.speed (⟨400, 309 - Real.sqrt 250 * 1.2, 240, (255, 0, 0), 0,
      -(Real.sqrt 250 * 1.2) + 0.5, true, true, 4⟩ : Ball) = Real.sqrt 250 * 1.2 - 0.5 := by
    unfold Ball.speed
    show Real.sqrt ((0:ℝ) ^ 2 + (-(Real.sqrt 250 * 1.2) + 0.5) ^ 2) = Real.sqrt 250 * 1.2 - 0.5
    rw [show (0:ℝ) ^ 2 + (-(Real.sqrt 250 * 1.2) + 0.5) ^ 2
        = (Real.sqrt 250 * 1.2 - 0.5) ^ 2 by ring,
      Real.sqrt_sq (by nlinarith)]
  have hP : bA1.preMove =
      ⟨400, 309 - Real.sqrt 250 * 1.2, 240, (255, 0, 0), 0, -15, true, true, 4⟩ := by
    unfold Ball.preMove
    rw [hg, clamp_speed_of_gt (by rw [hspeed]; simp only [MAX_SPEED]; nlinarith)]
    have hne : Real.sqrt 250 * 1.2 - 0.5 ≠ 0 := by nlinarith
    ext
    case vy =>
      rw [hspeed]
      simp only [MAX_SPEED]
      field_simp
      ring
    all_goals first | rfl | simp
  rw [hP, bounce_of_cd (by norm_num)]
  have hmv : (⟨400, 309 - Real.sqrt 250 * 1.2, 240, (255, 0, 0), 0, -15, true, true, 4⟩ : Ball).move =
      ⟨400, 294 - Real.sqrt 250 * 1.2, 240, (255, 0, 0), 0, -15, true, true, 4⟩ := by
    rw [Ball.move]
    ext <;> first | rfl | ring | norm_num
  rw [hmv]
  have hdist : distToCenter
      (⟨400, 294 - Real.sqrt 250 * 1.2, 240, (255, 0, 0), 0, -15, true, true, 4⟩ : Ball) =
      Real.sqrt 250 * 1.2 + 6 := by
    show Real.sqrt (((400:ℝ) - CENTER_X) ^ 2 +
      ((294:ℝ) - Real.sqrt 250 * 1.2 - CENTER_Y) ^ 2) = Real.sqrt 250 * 1.2 + 6
    have e : ((400:ℝ) - CENTER_X) ^ 2 + ((294:ℝ) - Real.sqrt 250 * 1.2 - CENTER_Y) ^ 2
        = (Real.sqrt 250 * 1.2 + 6) ^ 2 := by
      simp only [CENTER_X, CENTER_Y]
      ring
    rw [e, Real.sqrt_sq (by nlinarith)]
  have hout : BOUNDARY_RADIUS < distToCenter
      (⟨400, 294 - Real.sqrt 250 * 1.2, 240, (255, 0, 0), 0, -15, true, true, 4⟩ : Ball) + 240 := by
    rw [hdist]
    simp only [BOUNDARY_RADIUS]
    nlinarith
  rw [kib_of_gt hout]
  have hyc : (294:ℝ) - Real.sqrt 250 * 1.2 - CENTER_Y = -(6 + Real.sqrt 250 * 1.2) := by
    simp only [CENTER_Y]
    ring
  have hxc : (400:ℝ) - CENTER_X = 0 := by norm_num [CENTER_X]
  rw [hyc, hxc]
  obtain ⟨hcv, hsv⟩ := vertical_normal
    (show -(6 + Real.sqrt 250 * 1.2) ≠ 0 by nlinarith)
  have hsv1 : Real.sin (atan2 (-(6 + Real.sqrt 250 * 1.2)) 0) = -1 := by
    rw [hsv, abs_of_neg (by nlinarith)]
    have hne : (6:ℝ) + Real.sqrt 250 * 1.2 ≠ 0 := by nlinarith
    field_simp
  rw [hcv, hsv1, tick_of_pos (by norm_num)]
  ext <;> first | rfl | norm_num [bA2, CENTER_X, CENTER_Y, BOUNDARY_RADIUS]

/-- A generic intermediate tick on the vertical trajectory: ball resting at
the clamped position (400, 291) with moderate upward speed and positive
cooldown; the collision branch is suppressed, gravity applies, and the
containment clamp returns the ball to (400, 291). -/
theorem update_mid (co : Color) (w : ℝ) (cd : ℕ) (hcd : cd ≠ 0)
    (h1 : -15 ≤ w + GRAVITY) (h2 : w + GRAVITY ≤ -4) :
    (⟨400, 291, 240, co, 0, w, true, true, cd⟩ : Ball).update =
      ⟨400, 291, 240, co, 0, w + GRAVITY, true, true, cd - 1⟩ := by
  rw [update_of_active rfl]
  have hg : (⟨400, 291, 240, co, 0, w, true, true, cd⟩ : Ball).applyGravity =
      ⟨400, 291, 240, co, 0, w + GRAVITY, true, true, cd⟩ := by
    unfold Ball.applyGravity
    ext <;> rfl
  have hP : (⟨400, 291, 240, co, 0, w, true, true, cd⟩ : Ball).preMove =
      ⟨400, 291, 240, co, 0, w + GRAVITY, true, true, cd⟩ := by
    unfold Ball.preMove
    rw [hg]
    refine clamp_speed_of_le ?_
    unfold Ball.speed
    show Real.sqrt ((0:ℝ) ^ 2 + (w + GRAVITY) ^ 2) ≤ MAX_SPEED
    refine sqrt_le_of_sq_le (by norm_num [MAX_SPEED]) ?_
    simp only [MAX_SPEED]
    nlinarith
  rw [hP, bounce_of_cd hcd]
  have hmv : (⟨400, 291, 240, co, 0, w + GRAVITY, true, true, cd⟩ : Ball).move =
      ⟨400, 291 + (w + GRAVITY), 240, co, 0, w + GRAVITY, true, true, cd⟩ := by
    rw [Ball.move]
    ext <;> first | rfl | ring | norm_num
  rw [hmv]
  have hdist : distToCenter
      (⟨400, 291 + (w + GRAVITY), 240, co, 0, w + GRAVITY, true, true, cd⟩ : Ball) =
      -(w + GRAVITY - 9) := by
    show Real.sqrt (((400:ℝ) - CENTER_X) ^ 2 +
      ((291:ℝ) + (w + GRAVITY) - CENTER_Y) ^ 2) = -(w + GRAVITY - 9)
    have e : ((400:ℝ) - CENTER_X) ^ 2 + ((291:ℝ) + (w + GRAVITY) - CENTER_Y) ^ 2
        = (-(w + GRAVITY - 9)) ^ 2 := by
      simp only [CENTER_X, CENTER_Y]
      ring
    rw [e, Real.sqrt_sq (by nlinarith)]
  have hout : BOUNDARY_RADIUS < distToCenter
      (⟨400, 291 + (w + GRAVITY), 240, co, 0, w + GRAVITY, true, true, cd⟩ : Ball) + 240 := by
    rw [hdist]
    simp only [BOUNDARY_RADIUS]
    nlinarith
  rw [kib_of_gt hout]
  have hyc : (291:ℝ) + (w + GRAVITY) - CENTER_Y = w + GRAVITY - 9 := by
    simp only [CENTER_Y]
    ring
  have hxc : (400:ℝ) - CENTER_X = 0 := by norm_num [CENTER_X]
  rw [hyc, hxc]
  obtain ⟨hcv, hsv⟩ := vertical_normal (show w + GRAVITY - 9 ≠ 0 by nlinarith)
  have hne : w + GRAVITY - 9 ≠ 0 := by nlinarith
  have hsv1 : Real.sin (atan2 (w + GRAVITY - 9) 0) = -1 := by
    rw [hsv, abs_of_neg (by nlinarith), div_neg, div_self hne]
  rw [hcv, hsv1, tick_of_pos hcd]
  ext <;> first | rfl | norm_num [CENTER_X, CENTER_Y, BOUNDARY_RADIUS]

theorem update_bA2 : bA2.update = bA3 := by
  have h := update_mid (255, 0, 0) (-15) 3 (by norm_num) (by norm_num [GRAVITY])
    (by norm_num [GRAVITY])
  rw [bA2, h, bA3]
  ext <;> first | rfl | norm_num [GRAVITY]

theorem update_bA3 : bA3.update = bA4 := by
  have h := update_mid (255, 0, 0) (-14.5) 2 (by norm_num) (by norm_num [GRAVITY])
    (by norm_num [GRAVITY])
  rw [bA3, h, bA4]
  ext <;> first | rfl | norm_num [GRAVITY]

theorem update_bA4 : bA4.update = bA5 := by
  have h := update_mid (255, 0, 0) (-14) 1 (by norm_num) (by norm_num [GRAVITY])
    (by norm_num [GRAVITY])
  rw [bA4, h, bA5]
  ext <;> first | rfl | norm_num [GRAVITY]

theorem preMove_bA5 :
    bA5.preMove = ⟨400, 291, 240, (255, 0, 0), 0, -13, true, true, 0⟩ := by
  unfold Ball.preMove
  have hg : bA5.applyGravity = (⟨400, 291, 240, (255, 0, 0), 0, -13, true, true, 0⟩ : Ball) := by
    unfold Ball.applyGravity bA5
    ext <;> first | rfl | norm_num [GRAVITY]
  rw [hg]
  refine clamp_speed_of_le ?_
  unfold Ball.speed
  exact sqrt_le_of_sq_le (by norm_num [MAX_SPEED]) (by norm_num [MAX_SPEED])

/-- The collision guard holds again at `bA5`, the state of `ballA` five
updates after its first collision. -/
theorem collides_bA5 : Ball.collides bA5 := by
  refine ⟨rfl, ?_, ?_⟩
  · rw [preMove_bA5]
    have h : (10:ℝ) < Real.sqrt (((400:ℝ) + 0 - CENTER_X) ^ 2 + ((291:ℝ) + -13 - CENTER_Y) ^ 2) :=
      lt_sqrt_of_sq_lt (by norm_num [CENTER_X, CENTER_Y])
    show BOUNDARY_RADIUS < Real.sqrt (((400:ℝ) + 0 - CENTER_X) ^ 2 + ((291:ℝ) + -13 - CENTER_Y) ^ 2) + 240
    simp only [BOUNDARY_RADIUS]
    linarith
  · rw [preMove_bA5]

/-- C3 is refuted: `ballA` has a collision tick (setting the split flag and
the 5-tick cooldown), yet the collision branch fires again on the 5th
subsequent tick — the same-tick cooldown decrement leaves only 4 suppressed
ticks. -/
theorem cooldown_counterexample :
    Ball.collides ballA ∧ (ballA.update).should_split = true ∧
    Ball.collides (((((ballA.update).update).update).update).update) := by
  refine ⟨collides_ballA, ?_, ?_⟩
  · rw [update_ballA]
    simp [bA1]
  · rw [update_ballA, update_bA1, update_bA2, update_bA3, update_bA4]
    exact collides_bA5

/-- A collision tick leaves the cooldown at 4 (5 is set, then the same tick
decrements it). -/
theorem update_cd_of_collides (b : Ball) (h : Ball.collides b) :
    (b.update).collision_cooldown = 4 := by
  obtain ⟨ha, hc⟩ := h
  rw [update_of_active ha]
  simp only [Ball.bounce]
  rw [if_pos hc]
  simp [Ball.tickCooldown, Ball.move]

/-- An update lowers the cooldown by at most one. -/
theorem update_cd_pred (b : Ball) :
    b.collision_cooldown - 1 ≤ (b.update).collision_cooldown := by
  by_cases ha : b.active = true
  · rw [update_of_active ha]
    by_cases hc : Real.sqrt (((b.preMove).x + (b.preMove).vx - CENTER_X) ^ 2 +
        ((b.preMove).y + (b.preMove).vy - CENTER_Y) ^ 2) + (b.preMove).radius
        > BOUNDARY_RADIUS ∧ (b.preMove).collision_cooldown = 0
    · have h0 : b.collision_cooldown = 0 := by rw [← preMove_cd]; exact hc.2
      rw [h0]
      simp
    · rw [bounce_of_not hc, Ball.tickCooldown]
      split
      · simp
      · simp
  · rw [update_of_inactive (by simpa using ha)]
    omega

/-- A ball in cooldown cannot pass the collision guard. -/
theorem not_collides_of_cd (b : Ball) (h : b.collision_cooldown ≠ 0) :
    ¬ Ball.collides b := by
  rintro ⟨-, -, hcd⟩
  rw [preMove_cd] at hcd
  exact h hcd

/-- C3 corrected: after a collision tick the branch is suppressed for the 4
subsequent ticks (the cooldown is set to 5 but decremented on the collision
tick itself); a new collision-split may occur on the 5th subsequent tick. -/
theorem cooldown_amended (b : Ball) (h : Ball.collides b) :
    ¬ Ball.collides (b.update) ∧ ¬ Ball.collides ((b.update).update) ∧
    ¬ Ball.collides (((b.update).update).update) ∧
    ¬ Ball.collides ((((b.update).update).update).update) := by
  have h1 : (b.update).collision_cooldown = 4 := update_cd_of_collides b h
  have h2 := update_cd_pred (b.update)
  have h3 := update_cd_pred ((b.update).update)
  have h4 := update_cd_pred (((b.update).update).update)
  exact ⟨not_collides_of_cd _ (by omega), not_collides_of_cd _ (by omega),
    not_collides_of_cd _ (by omega), not_collides_of_cd _ (by omega)⟩

/-- Witness for `cooldown_amended` at the concrete ball `ballA`. -/
theorem cooldown_amended_witness : ¬ Ball.collides (ballA.update) :=
  (cooldown_amended ballA collides_ballA).1

/-- C5 is refuted: at the end of `ballA`'s first update (a bounce tick) its
speed is `sqrt(250)*1.2 ≈ 18.97`, above `MAX_SPEED = 15`; no clamp runs after
the post-bounce rescale. -/
theorem speed_clamp_counterexample : MAX_SPEED < Ball.speed (ballA.update) := by
  rw [update_ballA]
  unfold Ball.speed
  show MAX_SPEED < Real.sqrt ((0:ℝ) ^ 2 + (-(Real.sqrt 250 * 1.2)) ^ 2)
  rw [show (0:ℝ) ^ 2 + (-(Real.sqrt 250 * 1.2)) ^ 2 = (Real.sqrt 250 * 1.2) ^ 2 by ring,
    Real.sqrt_sq (by positivity)]
  have h1 : (12.5:ℝ) < Real.sqrt 250 := lt_sqrt_of_sq_lt (by norm_num)
  simp only [MAX_SPEED]
  nlinarith

/-- The speed clamp really bounds the speed by `MAX_SPEED`. -/
theorem clamp_speed_le_max (b : Ball) : Ball.speed (b.clamp_speed) ≤ MAX_SPEED := by
  by_cases h : MAX_SPEED < Ball.speed b
  · rw [clamp_speed_of_gt h]
    have hs0 : (0:ℝ) < Ball.speed b := lt_trans (by norm_num [MAX_SPEED]) h
    have hk : (0:ℝ) ≤ MAX_SPEED / Ball.speed b :=
      div_nonneg (by norm_num [MAX_SPEED]) (le_of_lt hs0)
    show Real.sqrt ((b.vx * (MAX_SPEED / Ball.speed b)) ^ 2 +
      (b.vy * (MAX_SPEED / Ball.speed b)) ^ 2) ≤ MAX_SPEED
    rw [show (b.vx * (MAX_SPEED / Ball.speed b)) ^ 2 +
        (b.vy * (MAX_SPEED / Ball.speed b)) ^ 2
        = (MAX_SPEED / Ball.speed b) ^ 2 * (b.vx ^ 2 + b.vy ^ 2) from by ring,
      Real.sqrt_mul (sq_nonneg _), Real.sqrt_sq hk,
      show Real.sqrt (b.vx ^ 2 + b.vy ^ 2) = Ball.speed b from rfl,
      div_mul_cancel₀ _ (ne_of_gt hs0)]
  · rw [clamp_speed_of_le (not_lt.mp h)]
    exact not_lt.mp h

/-- After a full update of an active ball the speed never exceeds the
post-bounce minimum `sqrt(2*GRAVITY*BOUNDARY_RADIUS)*1.2`. -/
theorem speed_update_le (b : Ball) (ha : b.active = true) :
    Ball.speed (b.update) ≤ Real.sqrt (2 * GRAVITY * BOUNDARY_RADIUS) * 1.2 := by
  have hms : MAX_SPEED < Real.sqrt (2 * GRAVITY * BOUNDARY_RADIUS) * 1.2 := by
    have h1 : (12.5:ℝ) < Real.sqrt (2 * GRAVITY * BOUNDARY_RADIUS) :=
      lt_sqrt_of_sq_lt (by norm_num [GRAVITY, BOUNDARY_RADIUS])
    simp only [MAX_SPEED]
    nlinarith
  rw [update_of_active ha]
  have hsp : Ball.speed ((((b.preMove).bounce).move).keep_in_bounds.tickCooldown)
      = Ball.speed ((b.preMove).bounce) := by
    unfold Ball.speed
    rw [tick_vx, tick_vy, kib_vx, kib_vy, move_vx, move_vy]
  rw [hsp]
  have hpre : Ball.speed (b.preMove) ≤ MAX_SPEED := clamp_speed_le_max (b.applyGravity)
  by_cases hc : Real.sqrt (((b.preMove).x + (b.preMove).vx - CENTER_X) ^ 2 +
      ((b.preMove).y + (b.preMove).vy - CENTER_Y) ^ 2) + (b.preMove).radius
      > BOUNDARY_RADIUS ∧ (b.preMove).collision_cooldown = 0
  · simp only [Ball.bounce]
    rw [if_pos hc]
    set angle := atan2 ((b.preMove).y - CENTER_Y) ((b.preMove).x - CENTER_X) with hangle
    have hunit := Real.sin_sq_add_cos_sq angle
    set rvx := (b.preMove).vx -
      2 * ((b.preMove).vx * Real.cos angle + (b.preMove).vy * Real.sin angle) *
        Real.cos angle with hrvx
    set rvy := (b.preMove).vy -
      2 * ((b.preMove).vx * Real.cos angle + (b.preMove).vy * Real.sin angle) *
        Real.sin angle with hrvy
    have hcs : Real.sqrt (rvx ^ 2 + rvy ^ 2) = Ball.speed (b.preMove) := by
      unfold Ball.speed
      rw [hrvx, hrvy]
      congr 1
      exact reflect_sq_norm (b.preMove).vx (b.preMove).vy (Real.cos angle)
        (Real.sin angle) hunit
    have hlt : Real.sqrt (rvx ^ 2 + rvy ^ 2) <
        Real.sqrt (2 * GRAVITY * BOUNDARY_RADIUS) * 1.2 := by
      rw [hcs]
      exact lt_of_le_of_lt hpre hms
    rw [if_pos hlt, if_pos hlt]
    have hms0 : (0:ℝ) ≤ Real.sqrt (2 * GRAVITY * BOUNDARY_RADIUS) * 1.2 := by positivity
    show Real.sqrt ((rvx * (Real.sqrt (2 * GRAVITY * BOUNDARY_RADIUS) * 1.2 /
        Real.sqrt (rvx ^ 2 + rvy ^ 2))) ^ 2 +
      (rvy * (Real.sqrt (2 * GRAVITY * BOUNDARY_RADIUS) * 1.2 /
        Real.sqrt (rvx ^ 2 + rvy ^ 2))) ^ 2) ≤
      Real.sqrt (2 * GRAVITY * BOUNDARY_RADIUS) * 1.2
    rw [show (rvx * (Real.sqrt (2 * GRAVITY * BOUNDARY_RADIUS) * 1.2 /
          Real.sqrt (rvx ^ 2 + rvy ^ 2))) ^ 2 +
        (rvy * (Real.sqrt (2 * GRAVITY * BOUNDARY_RADIUS) * 1.2 /
          Real.sqrt (rvx ^ 2 + rvy ^ 2))) ^ 2
        = (Real.sqrt (2 * GRAVITY * BOUNDARY_RADIUS) * 1.2 /
            Real.sqrt (rvx ^ 2 + rvy ^ 2)) ^ 2 * (rvx ^ 2 + rvy ^ 2) from by ring,
      Real.sqrt_mul (sq_nonneg _),
      Real.sqrt_sq (div_nonneg hms0 (Real.sqrt_nonneg _))]
    rcases eq_or_ne (Real.sqrt (rvx ^ 2 + rvy ^ 2)) 0 with h0 | h0
    · rw [h0, mul_zero]
      exact hms0
    · rw [div_mul_cancel₀ _ h0]
  · rw [bounce_of_not hc]
    exact le_trans hpre (le_of_lt hms)

/-- C5 corrected: the clamp to `MAX_SPEED` runs only after the gravity step;
a bounce tick's rescale can leave the ball at up to
`sqrt(2*GRAVITY*BOUNDARY_RADIUS)*1.2 ≈ 18.97 > MAX_SPEED` until the next
tick's clamp, and that is the true end-of-update speed bound. -/
theorem speed_clamp_amended (b : Ball) :
    Ball.speed (b.clamp_speed) ≤ MAX_SPEED ∧
    (b.active = true →
      Ball.speed (b.update) ≤ Real.sqrt (2 * GRAVITY * BOUNDARY_RADIUS) * 1.2) :=
  ⟨clamp_speed_le_max b, fun ha => speed_update_le b ha⟩

/-- Witness for `speed_clamp_amended` at the concrete ball `ballB`. -/
theorem speed_clamp_amended_witness :
    ballB.active = true ∧
    Ball.speed (ballB.update) ≤ Real.sqrt (2 * GRAVITY * BOUNDARY_RADIUS) * 1.2 :=
  ⟨rfl, (speed_clamp_amended ballB).2 rfl⟩

/-! ### The unguarded rescale division (C4) -/

theorem preMove_c4ball :
    c4ball.preMove = ⟨400, 549, 30, (255, 0, 255), 0, 0, false, true, 0⟩ := by
  unfold Ball.preMove
  have hg : c4ball.applyGravity = (⟨400, 549, 30, (255, 0, 255), 0, 0, false, true, 0⟩ : Ball) := by
    unfold Ball.applyGravity c4ball
    ext <;> first | rfl | norm_num [GRAVITY]
  rw [hg]
  refine clamp_speed_of_le ?_
  unfold Ball.speed
  exact sqrt_le_of_sq_le (by norm_num [MAX_SPEED]) (by norm_num [MAX_SPEED])

theorem collides_c4ball : Ball.collides c4ball := by
  refine ⟨rfl, ?_, ?_⟩
  · rw [preMove_c4ball]
    have h : Real.sqrt (((400:ℝ) + 0 - CENTER_X) ^ 2 + ((549:ℝ) + 0 - CENTER_Y) ^ 2) = 249 :=
      sqrt_eq_of_sq (by norm_num) (by norm_num [CENTER_X, CENTER_Y])
    show BOUNDARY_RADIUS < Real.sqrt (((400:ℝ) + 0 - CENTER_X) ^ 2 + ((549:ℝ) + 0 - CENTER_Y) ^ 2) + 30
    rw [h]
    norm_num [BOUNDARY_RADIUS]
  · rw [preMove_c4ball]

theorem reflectedV_c4ball : (c4ball.preMove).reflectedV = (0, 0) := by
  rw [preMove_c4ball]
  simp only [Ball.reflectedV]
  have hyc : (549:ℝ) - CENTER_Y = 249 := by norm_num [CENTER_Y]
  have hxc : (400:ℝ) - CENTER_X = 0 := by norm_num [CENTER_X]
  rw [hyc, hxc]
  obtain ⟨hcv, hsv⟩ := vertical_normal (show (249:ℝ) ≠ 0 by norm_num)
  rw [hcv, hsv]
  norm_num

/-- C4: the code has no guard at src/main.py line 108.  The spawnable state
`c4ball` (click at (400, 549), random velocity (0, -0.5)) passes the
collision guard with a zero post-reflection speed, so the rescale branch is
taken (`current_speed = 0 < min_speed`) and Python evaluates
`min_speed / 0.0`, raising `ZeroDivisionError`.  In this total model the
division yields 0 and the ball's velocity collapses to zero instead. -/
theorem rescale_div_zero_bug :
    Ball.rescaleDivZero c4ball ∧
    (c4ball.update).vx = 0 ∧ (c4ball.update).vy = 0 ∧
    0 < Real.sqrt (2 * GRAVITY * BOUNDARY_RADIUS) * 1.2 := by
  have hms : (0:ℝ) < Real.sqrt (2 * GRAVITY * BOUNDARY_RADIUS) * 1.2 := by
    have h1 : (12.5:ℝ) < Real.sqrt (2 * GRAVITY * BOUNDARY_RADIUS) :=
      lt_sqrt_of_sq_lt (by norm_num [GRAVITY, BOUNDARY_RADIUS])
    nlinarith
  have hgeo : Real.sqrt (((400:ℝ) + 0 - CENTER_X) ^ 2 + ((549:ℝ) + 0 - CENTER_Y) ^ 2)
      + (30:ℝ) > BOUNDARY_RADIUS := by
    have h : Real.sqrt (((400:ℝ) + 0 - CENTER_X) ^ 2 + ((549:ℝ) + 0 - CENTER_Y) ^ 2) = 249 :=
      sqrt_eq_of_sq (by norm_num) (by norm_num [CENTER_X, CENTER_Y])
    rw [h]
    norm_num [BOUNDARY_RADIUS]
  have hb4 : (⟨400, 549, 30, (255, 0, 255), 0, 0, false, true, 0⟩ : Ball).bounce =
      ⟨400, 549, 30, (255, 0, 255), 0, 0, true, true, 5⟩ := by
    simp only [Ball.bounce]
    rw [if_pos (⟨hgeo, trivial⟩ :
      Real.sqrt (((400:ℝ) + 0 - CENTER_X) ^ 2 + ((549:ℝ) + 0 - CENTER_Y) ^ 2)
        + (30:ℝ) > BOUNDARY_RADIUS ∧ True)]
    have hyc : (549:ℝ) - CENTER_Y = 249 := by norm_num [CENTER_Y]
    have hxc : (400:ℝ) - CENTER_X = 0 := by norm_num [CENTER_X]
    rw [hyc, hxc]
    obtain ⟨hcv, hsv⟩ := vertical_normal (show (249:ℝ) ≠ 0 by norm_num)
    have hsv1 : Real.sin (atan2 249 0) = 1 := by rw [hsv]; norm_num
    rw [hcv, hsv1]
    ext <;> norm_num
  refine ⟨⟨collides_c4ball, ?_⟩, ?_, ?_, hms⟩
  · rw [reflectedV_c4ball]
    norm_num
  · rw [update_of_active rfl, preMove_c4ball, hb4]
    simp
  · rw [update_of_active rfl, preMove_c4ball, hb4]
    simp

end BallSim
